import Mathlib

/-
Verification development for a two-service HTTP system:
service-a (Credential Authority, src/python-http/service-a/app.py) and
service-b (Request Forwarder / Action Endpoint, src/python-http/service-b/app.py).
The Python handlers are shallowly embedded as pure Lean functions; network
nondeterminism (the transport outcome of each outbound attempt) is an explicit
input, and the process-wide METRICS dictionaries are threaded as explicit state.
-/

/-- Model of the Python/JSON scalar values that can appear as a field of a
parsed request body (or as a query argument). `vnone` models Python `None`,
which is also what `dict.get` returns for an absent key. -/
inductive PyVal where
  | vnone : PyVal
  | vbool : Bool → PyVal
  | vint : Int → PyVal
  | vstr : String → PyVal
deriving DecidableEq, Repr

/-- Python truthiness of a `PyVal`, as used by the `or` operator and `bool()`. -/
def PyVal.truthy : PyVal → Bool
  | .vnone => false
  | .vbool b => b
  | .vint n => decide (n ≠ 0)
  | .vstr s => decide (s ≠ "")

/-- Python `a or b`: returns `a` when `a` is truthy, else `b`. -/
def pyOr (a b : PyVal) : PyVal := if a.truthy then a else b

/-- Python `s.strip()` on a string: leading and trailing whitespace removed
(computed on the character list so that concrete instances evaluate). -/
def pystrip (s : String) : String :=
  String.mk (((s.data.dropWhile Char.isWhitespace).reverse.dropWhile
    Char.isWhitespace).reverse)

/-- Value of a decimal digit list, most significant first. -/
def digitsToNat (cs : List Char) : Nat :=
  cs.foldl (fun n c => n * 10 + (c.toNat - 48)) 0

/-- Python `int(s)` on a string: surrounding whitespace is ignored, then an
optional sign followed by one or more digits; anything else raises (modelled
as `none`). -/
def pyStrToInt (s : String) : Option Int :=
  match (pystrip s).data with
  | [] => none
  | c :: cs =>
    let sd : Int × List Char :=
      if c = Char.ofNat 45 then (-1, cs)
      else if c = Char.ofNat 43 then (1, cs)
      else (1, c :: cs)
    if sd.2 ≠ [] ∧ sd.2.all Char.isDigit then some (sd.1 * digitsToNat sd.2)
    else none

/-- Python `int(v)` on a scalar, returning `none` when the conversion raises
(non-numeric strings, `None`). -/
def pyInt : PyVal → Option Int
  | .vnone => none
  | .vbool b => some (if b then 1 else 0)
  | .vint n => some n
  | .vstr s => pyStrToInt s

/-- Python `v.strip()`: defined only when `v` is a string; a call on any other
value raises `AttributeError`, modelled as `none`. -/
def pyStrip : PyVal → Option String
  | .vstr s => some (pystrip s)
  | _ => none

/-- Python `v == s` for a string literal `s`: only a string compares equal. -/
def pyEqStr (v : PyVal) (s : String) : Bool :=
  match v with
  | .vstr t => t == s
  | _ => false

/-- The `try: int(x) except: 0` coercion pattern used by both services for
`delay_ms`. -/
def pyIntOr0 (v : PyVal) : Int := (pyInt v).getD 0

/-- METRICS of service-a (src/python-http/service-a/app.py, lines 13-16). -/
structure AMetrics where
  requests_total : Nat
  token_requests : Nat
deriving DecidableEq, Repr

/-- Componentwise order on service-a counters. -/
def AMetrics.le (a b : AMetrics) : Prop :=
  a.requests_total ≤ b.requests_total ∧ a.token_requests ≤ b.token_requests

/-- Parsed JSON body of a POST /token request; an absent field is `vnone`
(matching `body.get(k)`), and a missing or non-JSON body is all-`vnone`
(matching `request.get_json(silent=True) or \x7b\x7d`). -/
structure ABody where
  username : PyVal
  password : PyVal
  delay_ms : PyVal
deriving DecidableEq, Repr

/-- Responses of the service-a /token handler: 200 with a token and user, or
401 with the invalid-credentials error. -/
inductive AResp where
  | tokenOk : String → String → AResp
  | invalidCreds : AResp
deriving DecidableEq, Repr

/-- The `maybe_delay_from_query_or_json` helper of service-a: sleeps when the
coerced delay is positive. The returned value is the slept duration in
milliseconds (0 when no sleep happens). -/
def maybe_delay_from_query_or_json (delay_ms : Int) : Int :=
  if delay_ms > 0 then delay_ms else 0

/-- Result of one invocation of the service-a /token handler: the HTTP
response (`none` when the handler raised, which Flask turns into a 500), the
updated metrics, and the milliseconds slept. -/
structure TokenOut where
  resp : Option (AResp × Nat)
  metrics : AMetrics
  sleptMs : Int
deriving DecidableEq, Repr

/-- The service-a POST /token handler (src/python-http/service-a/app.py,
lines 60-82). `argsDelay` models `request.args.get("delay_ms")` (`vnone` when
the query parameter is absent, otherwise a string). The handler raises
(modelled as `resp = none`) exactly when the truthy username value is not a
string, since `.strip()` is called on it. -/
def token (body : ABody) (argsDelay : PyVal) (m : AMetrics) : TokenOut :=
  let m1 : AMetrics := { m with token_requests := m.token_requests + 1 }
  match pyStrip (pyOr body.username (.vstr "")) with
  | none => { resp := none, metrics := m1, sleptMs := 0 }
  | some username =>
    let password := pyOr body.password (.vstr "")
    let delay_ms := pyIntOr0 (pyOr body.delay_ms (pyOr argsDelay (.vint 0)))
    let slept := maybe_delay_from_query_or_json delay_ms
    if username == "divya" && pyEqStr password "pass123" then
      { resp := some (.tokenOk ("token-" ++ username) username, 200),
        metrics := m1, sleptMs := slept }
    else
      { resp := some (.invalidCreds, 401), metrics := m1, sleptMs := slept }

/-- The service-a after_request hook: increments requests_total. -/
def log_request_a (m : AMetrics) : AMetrics :=
  { m with requests_total := m.requests_total + 1 }

/-- The service-a GET /health handler: constant body and status. -/
def health_a : String × Nat := ("ok", 200)

/-- The service-a GET /metrics handler: returns the current counters. -/
def metrics_endpoint_a (m : AMetrics) : AMetrics × Nat := (m, 200)

/-- METRICS of service-b (src/python-http/service-b/app.py, lines 17-25). -/
structure BMetrics where
  requests_total : Nat
  protected_action_requests : Nat
  provider_failures : Nat
  provider_timeouts : Nat
  provider_connection_errors : Nat
  provider_other_errors : Nat
  retries_used : Nat
deriving DecidableEq, Repr

/-- Componentwise order on service-b counters. -/
def BMetrics.le (a b : BMetrics) : Prop :=
  a.requests_total ≤ b.requests_total ∧
  a.protected_action_requests ≤ b.protected_action_requests ∧
  a.provider_failures ≤ b.provider_failures ∧
  a.provider_timeouts ≤ b.provider_timeouts ∧
  a.provider_connection_errors ≤ b.provider_connection_errors ∧
  a.provider_other_errors ≤ b.provider_other_errors ∧
  a.retries_used ≤ b.retries_used

/-- The exceptions of the requests library that an outbound attempt can raise.
Every constructor models a subclass of requests.exceptions.RequestException:
Timeout, ConnectionError, HTTPError (from raise_for_status), JSONDecodeError
(from r.json() on a malformed body), and any other RequestException. The
carried string models `str(e)`. -/
inductive ReqException where
  | timeout : String → ReqException
  | connectionError : String → ReqException
  | httpError : String → ReqException
  | jsonDecodeError : String → ReqException
  | otherRequestException : String → ReqException
deriving DecidableEq, Repr

/-- Python `str(e)` of the exception. -/
def ReqException.msg : ReqException → String
  | .timeout s => s
  | .connectionError s => s
  | .httpError s => s
  | .jsonDecodeError s => s
  | .otherRequestException s => s

/-- Whether `e` is an instance of requests.exceptions.Timeout. -/
def isTimeoutExc : ReqException → Bool
  | .timeout _ => true
  | _ => false

/-- Whether `e` is an instance of requests.exceptions.ConnectionError (and not
also of Timeout; ConnectTimeout, which subclasses both, is already caught by
the earlier Timeout clause and is modelled by the `timeout` constructor). -/
def isConnectionErrorExc : ReqException → Bool
  | .connectionError _ => true
  | _ => false

/-- Whether `e` is an instance of requests.exceptions.RequestException: true
for every modelled exception, since all five constructors model subclasses. -/
def isRequestException : ReqException → Bool := fun _ => true

/-- The three except clauses of call_provider_token, in their source order. -/
inductive ExcClass where
  | timeoutC : ExcClass
  | connC : ExcClass
  | otherC : ExcClass
deriving DecidableEq, Repr

/-- Which except clause of call_provider_token catches `e`, checked in source
order (Timeout, then ConnectionError, then RequestException); `none` means no
clause matches and the exception propagates out of the handler. -/
def catchClause (e : ReqException) : Option ExcClass :=
  if isTimeoutExc e then some .timeoutC
  else if isConnectionErrorExc e then some .connC
  else if isRequestException e then some .otherC
  else none

/-- The value r.json() returns when the body is valid JSON: either a dict,
from which the handler later reads the optional "token" and "user" keys, or
some other JSON value (a list, a number, a string, null): `.get` on such a
value raises AttributeError in the endpoint. -/
inductive ProviderJson where
  | dict : Option String → Option String → ProviderJson
  | nonDict : ProviderJson
deriving DecidableEq, Repr

/-- Body of a provider response whose status did not trigger an early return:
either r.json() returns a JSON value, or the body is not valid JSON and
r.json() raises JSONDecodeError. -/
inductive JsonBody where
  | parsed : ProviderJson → JsonBody
  | malformed : JsonBody
deriving DecidableEq, Repr

/-- Transport outcome of one outbound requests.post: either an HTTP response
arrived (with its status code and body), or the post itself raised. -/
inductive AttemptEvent where
  | response : Nat → JsonBody → AttemptEvent
  | raised : ReqException → AttemptEvent
deriving DecidableEq, Repr

/-- Response.raise_for_status(): raises HTTPError exactly for status codes in
[400, 600). -/
def raise_for_status (status : Nat) : Option ReqException :=
  if 400 ≤ status ∧ status < 600 then
    some (.httpError ("HTTP error " ++ toString status))
  else none

/-- Outcome of the try block of one attempt when it does not raise: the
provider said 401, or a success-status response whose body parsed to a JSON
value (returned as-is, dict or not). -/
inductive TryOutcome where
  | authFailed : TryOutcome
  | success : ProviderJson → TryOutcome
deriving DecidableEq, Repr

/-- The try block of one attempt of call_provider_token (src/python-http/
service-b/app.py, lines 75-82): a 401 returns auth_failed before
raise_for_status; any other error status raises HTTPError; a malformed body
raises JSONDecodeError from r.json(); otherwise the parsed json is returned. -/
def tryBody : AttemptEvent → Except ReqException TryOutcome
  | .raised e => .error e
  | .response status body =>
    if status == 401 then .ok .authFailed
    else
      match raise_for_status status with
      | some e => .error e
      | none =>
        match body with
        | .parsed pj => .ok (.success pj)
        | .malformed => .error (.jsonDecodeError "invalid json in response body")

/-- The metrics increments performed by the except clause for class `c`:
every clause increments provider_failures plus its own per-class counter. -/
def bumpClass (c : ExcClass) (m : BMetrics) : BMetrics :=
  match c with
  | .timeoutC =>
    { m with provider_failures := m.provider_failures + 1,
             provider_timeouts := m.provider_timeouts + 1 }
  | .connC =>
    { m with provider_failures := m.provider_failures + 1,
             provider_connection_errors := m.provider_connection_errors + 1 }
  | .otherC =>
    { m with provider_failures := m.provider_failures + 1,
             provider_other_errors := m.provider_other_errors + 1 }

/-- The METRICS["retries_used"] += 1 line of the backoff block. -/
def addRetry (m : BMetrics) : BMetrics :=
  { m with retries_used := m.retries_used + 1 }

/-- One outbound requests.post to the provider /token endpoint: the headers
carry the request id, the json payload carries username, password and
delay_ms. -/
structure OutCall where
  request_id : String
  username : String
  password : PyVal
  delay_ms : Int
deriving DecidableEq, Repr

/-- Mutable state of the retry loop of call_provider_token: the metrics, the
last exception seen, the number of backoff sleeps taken, and the outbound
calls issued so far. -/
structure CallState where
  metrics : BMetrics
  lastExc : Option ReqException
  sleeps : Nat
  outCalls : List OutCall
deriving DecidableEq, Repr

/-- The returned tuple of call_provider_token, (status, provider_json, err),
together with the final loop state. -/
structure CallResult where
  status : String
  providerJson : Option ProviderJson
  err : Option String
  final : CallState
deriving DecidableEq, Repr

/-- The fall-through return after the loop (also reached via break):
("provider_failed", None, str(last_exc) if last_exc else "unknown error"). -/
def providerFailedResult (st : CallState) : CallResult :=
  { status := "provider_failed", providerJson := none,
    err := some (match st.lastExc with
                 | some e => e.msg
                 | none => "unknown error"),
    final := st }

/-- The retry loop of call_provider_token (src/python-http/service-b/app.py,
lines 74-127). `pending` is the list of remaining attempt indices (range of
the attempt count); `ev` gives the transport outcome of each attempt index.
A `.error` result models an exception escaping the handler; it occurs only
when no except clause catches the exception. -/
def callLoop (u : String) (p : PyVal) (d : Int) (rid : String)
    (ev : Nat → AttemptEvent) (er : Bool) :
    List Nat → CallState → Except ReqException CallResult
  | [], st => .ok (providerFailedResult st)
  | attempt :: rest, st =>
    let st1 : CallState := { st with outCalls := st.outCalls ++ [⟨rid, u, p, d⟩] }
    match tryBody (ev attempt) with
    | .ok .authFailed =>
      .ok { status := "auth_failed", providerJson := none, err := none, final := st1 }
    | .ok (.success pj) =>
      .ok { status := "ok", providerJson := some pj, err := none, final := st1 }
    | .error e =>
      match catchClause e with
      | none => .error e
      | some c =>
        let st2 : CallState :=
          { st1 with metrics := bumpClass c st1.metrics, lastExc := some e }
        let proceed :=
          let st3 : CallState :=
            if er && attempt == 0 then
              { st2 with metrics := addRetry st2.metrics, sleeps := st2.sleeps + 1 }
            else st2
          callLoop u p d rid ev er rest st3
        match c with
        | .otherC => .ok (providerFailedResult st2)
        | .timeoutC => proceed
        | .connC => proceed

/-- Python range(n) as a list of attempt indices. -/
def rangeList (n : Nat) : List Nat := List.range n

/-- call_provider_token (src/python-http/service-b/app.py, lines 62-129):
attempts = 2 if enable_retry else 1, then the retry loop starting from the
given metrics with no exception seen, no sleeps, no calls issued. -/
def call_provider_token (username : String) (password : PyVal) (delay_ms : Int)
    (request_id : String) (enable_retry : Bool) (ev : Nat → AttemptEvent)
    (m : BMetrics) : Except ReqException CallResult :=
  callLoop username password delay_ms request_id ev enable_retry
    (rangeList (if enable_retry then 2 else 1))
    { metrics := m, lastExc := none, sleeps := 0, outCalls := [] }

/-- Parsed JSON body of a POST /protected-action request; absent fields are
`vnone`, and a missing or non-JSON body is all-`vnone`. -/
structure BBody where
  username : PyVal
  password : PyVal
  action : PyVal
  delay_ms : PyVal
  retry : PyVal
deriving DecidableEq, Repr

/-- Responses of the service-b /protected-action handler: the 200 combined
response (action, user, token, request_id), the 401 invalid-credentials
response, or the 503 provider-unavailable response with its details field. -/
inductive BResp where
  | actionOk : PyVal → Option String → Option String → String → BResp
  | invalidCreds : BResp
  | providerUnavailable : Option String → BResp
deriving DecidableEq, Repr

/-- The local variables computed by the parsing section of protected_action
(src/python-http/service-b/app.py, lines 135-152). -/
structure ParsedPA where
  username : String
  password : PyVal
  action : PyVal
  delay_ms : Int
  enable_retry : Bool
  request_id : String
deriving DecidableEq, Repr

/-- Result of one invocation of the service-b /protected-action handler: the
HTTP response (`none` when the handler raised, which Flask turns into a 500),
the parsed locals (`none` when parsing raised before completing), the result
of the provider call (`none` when no call completed), and the metrics. -/
structure PAOut where
  resp : Option (BResp × Nat)
  parsed : Option ParsedPA
  call : Option CallResult
  metrics : BMetrics
deriving DecidableEq, Repr

/-- The retry-enable flag of protected_action (src/python-http/service-b/
app.py, lines 148-149): `bool(body.get("retry"))` when the key maps to a
non-None value, else True. -/
def retryFlag (v : PyVal) : Bool :=
  match v with
  | .vnone => true
  | w => w.truthy

/-- The request id resolution of protected_action (src/python-http/service-b/
app.py, line 152): the inbound X-Request-ID header when present and truthy
(non-empty), else the generated uuid string. -/
def resolveReqId (hdr : Option String) (gen : String) : String :=
  match hdr with
  | none => gen
  | some h => if h = "" then gen else h

/-- The outcome-to-response mapping of protected_action (src/python-http/
service-b/app.py, lines 162-175): auth_failed becomes 401, any other non-ok
status becomes 503 with the error details, ok becomes the 200 combined
response reading the optional "user" and "token" keys of the provider json.
A raised provider call, or an ok result whose json is not a dict or is
absent (`.get` on either raises AttributeError), leaves resp = none (a
Flask 500). -/
def render_outcome (action : PyVal) (request_id : String) (pr : ParsedPA)
    (m1 : BMetrics) (res : Except ReqException CallResult) : PAOut :=
  match res with
  | .error _ => { resp := none, parsed := some pr, call := none, metrics := m1 }
  | .ok cr =>
    if cr.status = "auth_failed" then
      { resp := some (.invalidCreds, 401), parsed := some pr, call := some cr,
        metrics := cr.final.metrics }
    else if cr.status ≠ "ok" then
      { resp := some (.providerUnavailable cr.err, 503), parsed := some pr,
        call := some cr, metrics := cr.final.metrics }
    else
      match cr.providerJson with
      | some (.dict tok usr) =>
        { resp := some (.actionOk action usr tok request_id, 200),
          parsed := some pr, call := some cr, metrics := cr.final.metrics }
      | some .nonDict =>
        { resp := none, parsed := some pr, call := some cr,
          metrics := cr.final.metrics }
      | none =>
        { resp := none, parsed := some pr, call := some cr,
          metrics := cr.final.metrics }

/-- The service-b POST /protected-action handler (src/python-http/service-b/
app.py, lines 131-175). `hdrReqId` models `request.headers.get("X-Request-ID")`
(`none` when the header is absent), `genId` models the value of
`str(uuid.uuid4())` that would be generated, and `ev` gives the transport
outcome of each outbound attempt. The handler raises (resp = none) exactly
when the truthy username value is not a string (`.strip()` on it), or when a
status "ok" call result carries a json value that is not a dict, or none at
all (`.get` on either raises). -/
def protected_action (body : BBody) (hdrReqId : Option String) (genId : String)
    (ev : Nat → AttemptEvent) (m : BMetrics) : PAOut :=
  let m1 : BMetrics :=
    { m with protected_action_requests := m.protected_action_requests + 1 }
  match pyStrip (pyOr body.username (.vstr "")) with
  | none => { resp := none, parsed := none, call := none, metrics := m1 }
  | some username =>
    let password := pyOr body.password (.vstr "")
    let action := pyOr body.action (.vstr "ping")
    let delay_ms := pyIntOr0 (pyOr body.delay_ms (.vint 0))
    let enable_retry := retryFlag body.retry
    let request_id := resolveReqId hdrReqId genId
    let pr : ParsedPA := ⟨username, password, action, delay_ms, enable_retry, request_id⟩
    render_outcome action request_id pr m1
      (call_provider_token username password delay_ms request_id enable_retry ev m1)

/-- The service-b after_request hook: increments requests_total. -/
def log_request_b (m : BMetrics) : BMetrics :=
  { m with requests_total := m.requests_total + 1 }

/-- The service-b GET /health handler: constant body and status. -/
def health_b : String × Nat := ("ok", 200)

/-- The service-b GET /metrics handler: returns the current counters. -/
def metrics_endpoint_b (m : BMetrics) : BMetrics × Nat := (m, 200)

/-- Whether an Except value is a normal return (no exception escaped). -/
def isOkB (x : Except ReqException CallResult) : Bool :=
  match x with
  | .ok _ => true
  | .error _ => false

/-- Helper: the username value of either handler always strips to the trimmed
string, whether or not the given string is truthy. -/
theorem pyStrip_username (u : String) :
    pyStrip (pyOr (.vstr u) (.vstr "")) = some (pystrip u) := by
  by_cases h : u = "" <;> simp [pyOr, PyVal.truthy, pyStrip, h]

/-- Helper: some except clause catches every modelled requests exception. -/
theorem catchClause_isSome (e : ReqException) : (catchClause e).isSome := by
  cases e <;> simp [catchClause, isTimeoutExc, isConnectionErrorExc, isRequestException]

/-- Helper: the retry loop never lets an exception escape. -/
theorem callLoop_isOk (u : String) (p : PyVal) (d : Int) (rid : String)
    (ev : Nat → AttemptEvent) (er : Bool) :
    ∀ (pending : List Nat) (st : CallState),
      isOkB (callLoop u p d rid ev er pending st) = true := by
  intro pending
  induction pending with
  | nil => intro st; rfl
  | cons a rest ih =>
    intro st
    simp only [callLoop]
    cases htb : tryBody (ev a) with
    | ok o => cases o <;> rfl
    | error e =>
      cases hcc : catchClause e with
      | none => exact absurd (catchClause_isSome e) (by simp [hcc])
      | some c =>
        simp only [hcc]
        cases c <;> try rfl
        all_goals exact ih _

/-- Helper: reflexivity of the componentwise counter order. -/
theorem BMetrics.le_refl (m : BMetrics) : m.le m := by
  unfold BMetrics.le; omega

/-- Helper: transitivity of the componentwise counter order. -/
theorem BMetrics.le_trans {a b c : BMetrics} (h1 : a.le b) (h2 : b.le c) : a.le c := by
  unfold BMetrics.le at h1 h2 ⊢
  obtain ⟨x1, x2, x3, x4, x5, x6, x7⟩ := h1
  obtain ⟨y1, y2, y3, y4, y5, y6, y7⟩ := h2
  omega

/-- Helper: every except clause only increments counters. -/
theorem BMetrics.le_bumpClass (c : ExcClass) (m : BMetrics) : m.le (bumpClass c m) := by
  cases c <;> simp [bumpClass, BMetrics.le]

/-- Helper: the backoff block only increments counters. -/
theorem BMetrics.le_addRetry (m : BMetrics) : m.le (addRetry m) := by
  simp [addRetry, BMetrics.le]

/-- Helper: the retry loop never decreases any counter. -/
theorem callLoop_metrics_le (u : String) (p : PyVal) (d : Int) (rid : String)
    (ev : Nat → AttemptEvent) (er : Bool) :
    ∀ (pending : List Nat) (st : CallState) (r : CallResult),
      callLoop u p d rid ev er pending st = .ok r → st.metrics.le r.final.metrics := by
  intro pending
  induction pending with
  | nil =>
    intro st r h
    cases h
    exact BMetrics.le_refl _
  | cons a rest ih =>
    intro st r h
    simp only [callLoop] at h
    split at h
    · cases h; exact BMetrics.le_refl _
    · cases h; exact BMetrics.le_refl _
    · split at h
      · exact Except.noConfusion h
      · split at h
        · cases h
          exact BMetrics.le_bumpClass _ _
        · refine BMetrics.le_trans ?_ (ih _ _ h)
          split
          · exact BMetrics.le_trans (BMetrics.le_bumpClass _ _) (BMetrics.le_addRetry _)
          · exact BMetrics.le_bumpClass _ _
        · refine BMetrics.le_trans ?_ (ih _ _ h)
          split
          · exact BMetrics.le_trans (BMetrics.le_bumpClass _ _) (BMetrics.le_addRetry _)
          · exact BMetrics.le_bumpClass _ _

/-- Helper: a status "ok" result always carries a parsed provider json. -/
theorem callLoop_ok_json (u : String) (p : PyVal) (d : Int) (rid : String)
    (ev : Nat → AttemptEvent) (er : Bool) :
    ∀ (pending : List Nat) (st : CallState) (r : CallResult),
      callLoop u p d rid ev er pending st = .ok r → r.status = "ok" →
      r.providerJson.isSome := by
  intro pending
  induction pending with
  | nil =>
    intro st r h hs
    cases h
    simp [providerFailedResult] at hs
  | cons a rest ih =>
    intro st r h hs
    simp only [callLoop] at h
    split at h
    · cases h; simp at hs
    · cases h; simp
    · split at h
      · exact Except.noConfusion h
      · split at h
        · cases h; simp [providerFailedResult] at hs
        · exact ih _ _ h hs
        · exact ih _ _ h hs

/-- Helper: every outbound call issued by the retry loop carries the request
id, the stripped username, the untouched password and the coerced delay that
were passed in. -/
theorem callLoop_outCalls (u : String) (p : PyVal) (d : Int) (rid : String)
    (ev : Nat → AttemptEvent) (er : Bool) :
    ∀ (pending : List Nat) (st : CallState) (r : CallResult),
      callLoop u p d rid ev er pending st = .ok r →
      (∀ oc ∈ st.outCalls, oc = OutCall.mk rid u p d) →
      ∀ oc ∈ r.final.outCalls, oc = OutCall.mk rid u p d := by
  intro pending
  induction pending with
  | nil =>
    intro st r h hst
    cases h
    exact hst
  | cons a rest ih =>
    intro st r h hst
    have hst1 : ∀ oc ∈ st.outCalls ++ [OutCall.mk rid u p d], oc = OutCall.mk rid u p d := by
      intro oc hm
      rcases List.mem_append.mp hm with hl | hr
      · exact hst oc hl
      · simpa using hr
    simp only [callLoop] at h
    split at h
    · cases h; exact hst1
    · cases h; exact hst1
    · split at h
      · exact Except.noConfusion h
      · split at h
        · cases h; exact hst1
        · refine ih _ _ h ?_
          split <;> exact hst1
        · refine ih _ _ h ?_
          split <;> exact hst1

/-- Helper: the attempt index list for two attempts. -/
theorem rangeList_two : rangeList 2 = [0, 1] := rfl

/-- Helper: the attempt index list for one attempt. -/
theorem rangeList_one : rangeList 1 = [0] := rfl

/-- C1: whenever an attempt of a forwarding run gets a 401 response from the
provider, call_provider_token returns the auth_failed status at once: no
further outbound attempt is issued even with retry enabled, and the 401
attempt increments none of the failure counters and takes no backoff. Part
one covers a 401 on attempt 1 (for either retry setting: exactly one
outbound call, metrics unchanged); part two covers a 401 on attempt 2 after
a transient failure on attempt 1 (exactly two outbound calls, and the
metrics hold only the attempt-1 increments plus the retry counter). -/
theorem C1_auth_rejection_short_circuits
    (u : String) (p : PyVal) (d : Int) (rid : String) (m : BMetrics)
    (ev : Nat → AttemptEvent) (b : JsonBody) (e : ReqException) (c : ExcClass) :
    (∀ er : Bool, ev 0 = .response 401 b →
      call_provider_token u p d rid er ev m =
        .ok { status := "auth_failed", providerJson := none, err := none,
              final := { metrics := m, lastExc := none, sleeps := 0,
                         outCalls := [OutCall.mk rid u p d] } }) ∧
    (ev 0 = .raised e → catchClause e = some c → (c = .timeoutC ∨ c = .connC) →
      ev 1 = .response 401 b →
      call_provider_token u p d rid true ev m =
        .ok { status := "auth_failed", providerJson := none, err := none,
              final := { metrics := addRetry (bumpClass c m), lastExc := some e,
                         sleeps := 1,
                         outCalls := [OutCall.mk rid u p d, OutCall.mk rid u p d] } }) := by
  constructor
  · intro er h0
    cases er <;>
      simp [call_provider_token, rangeList_two, rangeList_one, callLoop, h0, tryBody]
  · intro h0 hcc hc h1
    rcases hc with rfl | rfl <;>
      simp [call_provider_token, rangeList_two, callLoop, h0, h1, tryBody, hcc]

/-- Witness for C1 at a concrete run: timeout on attempt 1, then 401. -/
theorem C1_witness :
    call_provider_token "divya" (.vstr "pass123") 0 "rid-1" true
        (fun n => if n = 0 then .raised (.timeout "timed out") else .response 401 .malformed)
        (BMetrics.mk 5 4 3 2 1 0 9) =
      .ok { status := "auth_failed", providerJson := none, err := none,
            final := { metrics := addRetry (bumpClass .timeoutC (BMetrics.mk 5 4 3 2 1 0 9)),
                       lastExc := some (.timeout "timed out"), sleeps := 1,
                       outCalls := [OutCall.mk "rid-1" "divya" (.vstr "pass123") 0,
                                    OutCall.mk "rid-1" "divya" (.vstr "pass123") 0] } } :=
  (C1_auth_rejection_short_circuits "divya" (.vstr "pass123") 0 "rid-1"
      (BMetrics.mk 5 4 3 2 1 0 9)
      (fun n => if n = 0 then .raised (.timeout "timed out") else .response 401 .malformed)
      .malformed (.timeout "timed out") .timeoutC).2 rfl rfl (Or.inl rfl) rfl

/-- C2: a non-transient "other" request exception on attempt 1 (anything the
final except clause catches: an unexpected HTTP status, a malformed success
body, any other RequestException) terminates the run at once even with retry
enabled: one outbound call, provider_failures and provider_other_errors each
up by one, retries_used untouched, no backoff sleep, and the provider_failed
status (mapped to ProviderUnavailable) is returned. -/
theorem C2_other_error_not_retried
    (u : String) (p : PyVal) (d : Int) (rid : String) (m : BMetrics)
    (ev : Nat → AttemptEvent) (e : ReqException)
    (h0 : tryBody (ev 0) = .error e) (hc : catchClause e = some .otherC) :
    call_provider_token u p d rid true ev m =
      .ok { status := "provider_failed", providerJson := none, err := some e.msg,
            final := { metrics := bumpClass .otherC m, lastExc := some e, sleeps := 0,
                       outCalls := [OutCall.mk rid u p d] } } := by
  simp [call_provider_token, rangeList_two, callLoop, h0, hc, providerFailedResult]

/-- Witness for C2 at a concrete run: an unexpected 500 status on attempt 1
(raise_for_status raises HTTPError, caught by the final clause). -/
theorem C2_witness :
    call_provider_token "divya" (.vstr "pass123") 7 "rid-2" true
        (fun _ => .response 500 .malformed) (BMetrics.mk 0 0 0 0 0 0 0) =
      .ok { status := "provider_failed", providerJson := none,
            err := some (ReqException.msg (.httpError ("HTTP error " ++ toString 500))),
            final := { metrics := bumpClass .otherC (BMetrics.mk 0 0 0 0 0 0 0),
                       lastExc := some (.httpError ("HTTP error " ++ toString 500)),
                       sleeps := 0,
                       outCalls := [OutCall.mk "rid-2" "divya" (.vstr "pass123") 7] } } :=
  C2_other_error_not_retried "divya" (.vstr "pass123") 7 "rid-2"
    (BMetrics.mk 0 0 0 0 0 0 0) (fun _ => .response 500 .malformed)
    (.httpError ("HTTP error " ++ toString 500)) rfl rfl

/-- C4: with retry enabled, a timeout on attempt 1 followed by a well-formed
success on attempt 2 yields the ok status with the provider token and user;
provider_failures and provider_timeouts are each incremented exactly once,
retries_used exactly once, and exactly one backoff sleep occurs between the
two outbound attempts. -/
theorem C4_timeout_then_success
    (u : String) (p : PyVal) (d : Int) (rid : String) (m : BMetrics)
    (ev : Nat → AttemptEvent) (s tok usr : String)
    (h0 : ev 0 = .raised (.timeout s))
    (h1 : ev 1 = .response 200 (.parsed (.dict (some tok) (some usr)))) :
    call_provider_token u p d rid true ev m =
      .ok { status := "ok", providerJson := some (.dict (some tok) (some usr)), err := none,
            final := { metrics := addRetry (bumpClass .timeoutC m),
                       lastExc := some (.timeout s), sleeps := 1,
                       outCalls := [OutCall.mk rid u p d, OutCall.mk rid u p d] } } := by
  simp [call_provider_token, rangeList_two, callLoop, h0, h1, tryBody, catchClause,
        isTimeoutExc, raise_for_status]

/-- Witness for C4 at a concrete run. -/
theorem C4_witness :
    call_provider_token "divya" (.vstr "pass123") 0 "rid-4" true
        (fun n => if n = 0 then .raised (.timeout "read timed out")
                  else .response 200 (.parsed (.dict (some "token-divya") (some "divya"))))
        (BMetrics.mk 0 0 0 0 0 0 0) =
      .ok { status := "ok", providerJson := some (.dict (some "token-divya") (some "divya")),
            err := none,
            final := { metrics := addRetry (bumpClass .timeoutC (BMetrics.mk 0 0 0 0 0 0 0)),
                       lastExc := some (.timeout "read timed out"), sleeps := 1,
                       outCalls := [OutCall.mk "rid-4" "divya" (.vstr "pass123") 0,
                                    OutCall.mk "rid-4" "divya" (.vstr "pass123") 0] } } :=
  C4_timeout_then_success "divya" (.vstr "pass123") 0 "rid-4" (BMetrics.mk 0 0 0 0 0 0 0)
    (fun n => if n = 0 then .raised (.timeout "read timed out")
              else .response 200 (.parsed (.dict (some "token-divya") (some "divya"))))
    "read timed out" "token-divya" "divya" rfl rfl

/-- C6: call_provider_token never raises: for every retry setting and every
transport outcome of every attempt (timeout, connection failure, HTTP error
status, a success status with a malformed json body, any other request
exception), the function returns a status tuple normally; every modelled
exception is caught by one of the three except clauses. -/
theorem C6_forwarder_never_raises
    (u : String) (p : PyVal) (d : Int) (rid : String) (er : Bool)
    (ev : Nat → AttemptEvent) (m : BMetrics) :
    isOkB (call_provider_token u p d rid er ev m) = true :=
  callLoop_isOk u p d rid ev er _ _

/-- Helper: with retry enabled, two transient (timeout or connection) failures
exhaust both attempts: each attempt bumps its own failure class, one backoff
is taken, and the run ends with provider_failed carrying the last error. -/
theorem call_exhaust_retry
    (u : String) (p : PyVal) (d : Int) (rid : String) (m : BMetrics)
    (ev : Nat → AttemptEvent) (e0 : ReqException) (c0 : ExcClass)
    (e1 : ReqException) (c1 : ExcClass)
    (h0 : tryBody (ev 0) = .error e0) (hcc0 : catchClause e0 = some c0)
    (hc0 : c0 = .timeoutC ∨ c0 = .connC)
    (h1 : tryBody (ev 1) = .error e1) (hcc1 : catchClause e1 = some c1)
    (hc1 : c1 = .timeoutC ∨ c1 = .connC) :
    call_provider_token u p d rid true ev m =
      .ok { status := "provider_failed", providerJson := none, err := some e1.msg,
            final := { metrics := bumpClass c1 (addRetry (bumpClass c0 m)),
                       lastExc := some e1, sleeps := 1,
                       outCalls := [OutCall.mk rid u p d, OutCall.mk rid u p d] } } := by
  rcases hc0 with rfl | rfl <;> rcases hc1 with rfl | rfl <;>
    simp [call_provider_token, rangeList_two, callLoop, h0, h1, hcc0, hcc1,
          providerFailedResult]

/-- Helper: with retry disabled, a single transient failure exhausts the one
attempt: no backoff, no retries_used, provider_failed with that error. -/
theorem call_exhaust_noretry
    (u : String) (p : PyVal) (d : Int) (rid : String) (m : BMetrics)
    (ev : Nat → AttemptEvent) (e0 : ReqException) (c0 : ExcClass)
    (h0 : tryBody (ev 0) = .error e0) (hcc0 : catchClause e0 = some c0)
    (hc0 : c0 = .timeoutC ∨ c0 = .connC) :
    call_provider_token u p d rid false ev m =
      .ok { status := "provider_failed", providerJson := none, err := some e0.msg,
            final := { metrics := bumpClass c0 m, lastExc := some e0, sleeps := 0,
                       outCalls := [OutCall.mk rid u p d] } } := by
  rcases hc0 with rfl | rfl <;>
    simp [call_provider_token, rangeList_one, callLoop, h0, hcc0, providerFailedResult]

/-- C3: when every attempt fails with a retry-eligible transient error
(timeout or connection failure), the forwarder returns provider_failed
carrying the description of the last observed error, protected_action maps it
to a 503 response whose details field holds that description, and the total
of the two transient-failure-class counters grows by exactly the attempt
count: by 2 with retry enabled, by 1 with retry disabled. -/
theorem C3_transient_exhaustion_503
    (u : String) (pw act dl : PyVal) (g : String) (m : BMetrics)
    (ev : Nat → AttemptEvent) (e0 e1 : ReqException) (c0 c1 : ExcClass)
    (h0 : tryBody (ev 0) = .error e0) (hcc0 : catchClause e0 = some c0)
    (hc0 : c0 = .timeoutC ∨ c0 = .connC)
    (h1 : tryBody (ev 1) = .error e1) (hcc1 : catchClause e1 = some c1)
    (hc1 : c1 = .timeoutC ∨ c1 = .connC) :
    ((protected_action ⟨.vstr u, pw, act, dl, .vbool true⟩ none g ev m).resp =
        some (.providerUnavailable (some e1.msg), 503) ∧
     (protected_action ⟨.vstr u, pw, act, dl, .vbool true⟩ none g ev m).call.map
        (fun cr => (cr.status, cr.err)) = some ("provider_failed", some e1.msg) ∧
     (protected_action ⟨.vstr u, pw, act, dl, .vbool true⟩ none g ev m).metrics.provider_timeouts +
       (protected_action ⟨.vstr u, pw, act, dl, .vbool true⟩ none g ev m).metrics.provider_connection_errors =
       m.provider_timeouts + m.provider_connection_errors + 2) ∧
    ((protected_action ⟨.vstr u, pw, act, dl, .vbool false⟩ none g ev m).resp =
        some (.providerUnavailable (some e0.msg), 503) ∧
     (protected_action ⟨.vstr u, pw, act, dl, .vbool false⟩ none g ev m).call.map
        (fun cr => (cr.status, cr.err)) = some ("provider_failed", some e0.msg) ∧
     (protected_action ⟨.vstr u, pw, act, dl, .vbool false⟩ none g ev m).metrics.provider_timeouts +
       (protected_action ⟨.vstr u, pw, act, dl, .vbool false⟩ none g ev m).metrics.provider_connection_errors =
       m.provider_timeouts + m.provider_connection_errors + 1) := by
  constructor
  · have hcall := call_exhaust_retry (pystrip u) (pyOr pw (.vstr "")) (pyIntOr0 (pyOr dl (.vint 0)))
      g { m with protected_action_requests := m.protected_action_requests + 1 }
      ev e0 c0 e1 c1 h0 hcc0 hc0 h1 hcc1 hc1
    refine ⟨?_, ?_, ?_⟩ <;>
      (simp [protected_action, render_outcome, pyStrip_username, PyVal.truthy, retryFlag, resolveReqId, hcall]) <;>
      (rcases hc0 with rfl | rfl <;> rcases hc1 with rfl | rfl <;>
        simp [bumpClass, addRetry] <;> omega)
  · have hcall := call_exhaust_noretry (pystrip u) (pyOr pw (.vstr "")) (pyIntOr0 (pyOr dl (.vint 0)))
      g { m with protected_action_requests := m.protected_action_requests + 1 }
      ev e0 c0 h0 hcc0 hc0
    refine ⟨?_, ?_, ?_⟩ <;>
      (simp [protected_action, render_outcome, pyStrip_username, PyVal.truthy, retryFlag, resolveReqId, hcall]) <;>
      (rcases hc0 with rfl | rfl <;> simp [bumpClass, addRetry] <;> omega)

/-- Witness for C3 at a concrete run: timeout on attempt 1, connection error
on attempt 2. -/
theorem C3_witness :
    ((protected_action ⟨.vstr "divya", .vstr "x", .vnone, .vnone, .vbool true⟩ none "G"
        (fun n => if n = 0 then .raised (.timeout "t1") else .raised (.connectionError "c2"))
        (BMetrics.mk 0 0 0 0 0 0 0)).resp =
        some (.providerUnavailable (some "c2"), 503) ∧
     (protected_action ⟨.vstr "divya", .vstr "x", .vnone, .vnone, .vbool true⟩ none "G"
        (fun n => if n = 0 then .raised (.timeout "t1") else .raised (.connectionError "c2"))
        (BMetrics.mk 0 0 0 0 0 0 0)).call.map (fun cr => (cr.status, cr.err)) =
        some ("provider_failed", some "c2") ∧
     (protected_action ⟨.vstr "divya", .vstr "x", .vnone, .vnone, .vbool true⟩ none "G"
        (fun n => if n = 0 then .raised (.timeout "t1") else .raised (.connectionError "c2"))
        (BMetrics.mk 0 0 0 0 0 0 0)).metrics.provider_timeouts +
       (protected_action ⟨.vstr "divya", .vstr "x", .vnone, .vnone, .vbool true⟩ none "G"
        (fun n => if n = 0 then .raised (.timeout "t1") else .raised (.connectionError "c2"))
        (BMetrics.mk 0 0 0 0 0 0 0)).metrics.provider_connection_errors =
       (BMetrics.mk 0 0 0 0 0 0 0).provider_timeouts +
         (BMetrics.mk 0 0 0 0 0 0 0).provider_connection_errors + 2) ∧
    ((protected_action ⟨.vstr "divya", .vstr "x", .vnone, .vnone, .vbool false⟩ none "G"
        (fun n => if n = 0 then .raised (.timeout "t1") else .raised (.connectionError "c2"))
        (BMetrics.mk 0 0 0 0 0 0 0)).resp =
        some (.providerUnavailable (some "t1"), 503) ∧
     (protected_action ⟨.vstr "divya", .vstr "x", .vnone, .vnone, .vbool false⟩ none "G"
        (fun n => if n = 0 then .raised (.timeout "t1") else .raised (.connectionError "c2"))
        (BMetrics.mk 0 0 0 0 0 0 0)).call.map (fun cr => (cr.status, cr.err)) =
        some ("provider_failed", some "t1") ∧
     (protected_action ⟨.vstr "divya", .vstr "x", .vnone, .vnone, .vbool false⟩ none "G"
        (fun n => if n = 0 then .raised (.timeout "t1") else .raised (.connectionError "c2"))
        (BMetrics.mk 0 0 0 0 0 0 0)).metrics.provider_timeouts +
       (protected_action ⟨.vstr "divya", .vstr "x", .vnone, .vnone, .vbool false⟩ none "G"
        (fun n => if n = 0 then .raised (.timeout "t1") else .raised (.connectionError "c2"))
        (BMetrics.mk 0 0 0 0 0 0 0)).metrics.provider_connection_errors =
       (BMetrics.mk 0 0 0 0 0 0 0).provider_timeouts +
         (BMetrics.mk 0 0 0 0 0 0 0).provider_connection_errors + 1) :=
  C3_transient_exhaustion_503 "divya" (.vstr "x") .vnone .vnone "G" (BMetrics.mk 0 0 0 0 0 0 0)
    (fun n => if n = 0 then .raised (.timeout "t1") else .raised (.connectionError "c2"))
    (.timeout "t1") (.connectionError "c2") .timeoutC .connC
    rfl rfl (Or.inl rfl) rfl rfl (Or.inr rfl)

/-- Helper: the password value of either handler is left untouched when it is
a string, whether or not it is truthy. -/
theorem pyOr_vstr_empty (s : String) : pyOr (.vstr s) (.vstr "") = .vstr s := by
  by_cases h : s = "" <;> simp [pyOr, PyVal.truthy, h]

/-- Helper: Python None or-defaults to the right operand. -/
theorem pyOr_vnone (b : PyVal) : pyOr .vnone b = b := by
  simp [pyOr, PyVal.truthy]

/-- Helper: the rendering step always reports the parsed locals. -/
theorem render_outcome_parsed (a : PyVal) (rid : String) (pr : ParsedPA)
    (m1 : BMetrics) (res : Except ReqException CallResult) :
    (render_outcome a rid pr m1 res).parsed = some pr := by
  cases res with
  | error e => rfl
  | ok cr =>
    simp only [render_outcome]
    split
    · rfl
    · split
      · rfl
      · split <;> rfl

/-- Helper: the call result reported by the rendering step is the ok value of
the provider call. -/
theorem render_outcome_call (a : PyVal) (rid : String) (pr : ParsedPA)
    (m1 : BMetrics) (res : Except ReqException CallResult) (cr : CallResult)
    (h : (render_outcome a rid pr m1 res).call = some cr) : res = .ok cr := by
  cases res with
  | error e => exact Option.noConfusion h
  | ok cr0 =>
    simp only [render_outcome] at h
    split at h
    · cases h; rfl
    · split at h
      · cases h; rfl
      · split at h <;> (cases h; rfl)

/-- Helper: every response the rendering step produces carries status 200,
401 or 503; 401 only for invalidCreds on an auth_failed result, 503 only for
providerUnavailable, and 200 only for the combined success response carrying
the given request id. -/
theorem render_outcome_resp (a : PyVal) (rid : String) (pr : ParsedPA)
    (m1 : BMetrics) (res : Except ReqException CallResult) (r : BResp) (st : Nat)
    (h : (render_outcome a rid pr m1 res).resp = some (r, st)) :
    (st = 401 ∧ r = .invalidCreds) ∨
    (st = 503 ∧ ∃ dt, r = .providerUnavailable dt) ∨
    (st = 200 ∧ ∃ usr tok, r = .actionOk a usr tok rid) := by
  cases res with
  | error e => exact Option.noConfusion h
  | ok cr =>
    simp only [render_outcome] at h
    split at h
    · cases h; exact Or.inl ⟨rfl, rfl⟩
    · split at h
      · cases h; exact Or.inr (Or.inl ⟨rfl, cr.err, rfl⟩)
      · split at h
        · cases h
          exact Or.inr (Or.inr ⟨rfl, _, _, rfl⟩)
        · exact Option.noConfusion h
        · exact Option.noConfusion h

/-- C10: the username is stripped before the credential check and before
forwarding, and the password is not: any username whose stripped form is the
fixed one succeeds with the correct password, and the token is derived from
the stripped username; any password other than the exact fixed one is
rejected even if it strips to it; and the consumer parses the stripped
username with the untouched password, so every outbound provider call carries
exactly those. -/
theorem C10_username_stripping
    (u pw : String) (m : AMetrics) (act dl rt : PyVal) (hdr : Option String)
    (g : String) (ev : Nat → AttemptEvent) (mb : BMetrics) :
    ((pystrip u) = "divya" → pw = "pass123" →
      (token ⟨.vstr u, .vstr pw, .vnone⟩ .vnone m).resp =
        some (.tokenOk ("token-" ++ (pystrip u)) (pystrip u), 200)) ∧
    (pw ≠ "pass123" →
      (token ⟨.vstr u, .vstr pw, .vnone⟩ .vnone m).resp = some (.invalidCreds, 401)) ∧
    (∀ pr, (protected_action ⟨.vstr u, .vstr pw, act, dl, rt⟩ hdr g ev mb).parsed = some pr →
      pr.username = (pystrip u) ∧ pr.password = .vstr pw) ∧
    (∀ cr, (protected_action ⟨.vstr u, .vstr pw, act, dl, rt⟩ hdr g ev mb).call = some cr →
      ∀ oc ∈ cr.final.outCalls, oc.username = (pystrip u) ∧ oc.password = .vstr pw) := by
  refine ⟨?_, ?_, ?_, ?_⟩
  · intro h1 h2
    subst h2
    simp [token, pyStrip, pyOr_vstr_empty, pyEqStr, h1]
  · intro h2
    simp [token, pyStrip, pyOr_vstr_empty, pyEqStr, h2]
  · intro pr hpr
    simp only [protected_action, pyStrip, pyOr_vstr_empty] at hpr
    rw [render_outcome_parsed] at hpr
    cases hpr
    exact ⟨rfl, rfl⟩
  · intro cr hcr oc hm
    simp only [protected_action, pyStrip, pyOr_vstr_empty] at hcr
    have hres := render_outcome_call _ _ _ _ _ _ hcr
    have hout := callLoop_outCalls (pystrip u) (.vstr pw) (pyIntOr0 (pyOr dl (.vint 0)))
      (resolveReqId hdr g) ev (retryFlag rt) _ _ cr hres
      (by intro oc2 hm2; exact absurd hm2 (List.not_mem_nil oc2)) oc hm
    rw [hout]
    exact ⟨rfl, rfl⟩

/-- Witness for C10 at concrete inputs: a padded username with the fixed
password succeeds with the token of the stripped name, while a padded
password fails. -/
theorem C10_witness :
    (token ⟨.vstr " divya ", .vstr "pass123", .vnone⟩ .vnone (AMetrics.mk 0 0)).resp =
      some (.tokenOk ("token-" ++ (pystrip " divya ")) (pystrip " divya "), 200) ∧
    (token ⟨.vstr " divya ", .vstr " pass123 ", .vnone⟩ .vnone (AMetrics.mk 0 0)).resp =
      some (.invalidCreds, 401) :=
  ⟨(C10_username_stripping " divya " "pass123" (AMetrics.mk 0 0) .vnone .vnone .vnone
      none "G" (fun _ => .response 401 .malformed) (BMetrics.mk 0 0 0 0 0 0 0)).1
      (by decide) rfl,
   (C10_username_stripping " divya " " pass123 " (AMetrics.mk 0 0) .vnone .vnone .vnone
      none "G" (fun _ => .response 401 .malformed) (BMetrics.mk 0 0 0 0 0 0 0)).2.1
      (by decide)⟩

/-- C5 counterexample: the pair with username " divya " (whitespace padded)
differs from the fixed pair, yet the handler returns 200 with a token instead
of the 401 rejection the claim requires for every other pair, because the
username is stripped before the check. -/
theorem C5_counterexample :
    (" divya ", "pass123") ≠ ("divya", "pass123") ∧
    (token ⟨.vstr " divya ", .vstr "pass123", .vnone⟩ .vnone (AMetrics.mk 0 0)).resp =
      some (.tokenOk "token-divya" "divya", 200) := by
  exact ⟨by decide, by decide⟩

/-- C5 amended: the handler accepts exactly the string pairs whose stripped
username is the fixed username and whose password is exactly the fixed
password; on success the token is a deterministic function of the stripped
username; every other string pair (including empty strings) gets the 401
rejection; the handler never raises on string credentials, and an absent or
non-numeric delay value is treated as zero delay. -/
theorem C5_amended_fixed_pair
    (u pw : String) (bd ad : PyVal) (m : AMetrics) :
    (token ⟨.vstr u, .vstr pw, bd⟩ ad m).resp =
      some (if (pystrip u) = "divya" ∧ pw = "pass123"
            then (.tokenOk ("token-" ++ (pystrip u)) (pystrip u), 200)
            else (.invalidCreds, 401)) ∧
    (pyInt (pyOr bd (pyOr ad (.vint 0))) = none →
      (token ⟨.vstr u, .vstr pw, bd⟩ ad m).sleptMs = 0) ∧
    (bd = .vnone → ad = .vnone → (token ⟨.vstr u, .vstr pw, bd⟩ ad m).sleptMs = 0) := by
  refine ⟨?_, ?_, ?_⟩
  · by_cases h1 : (pystrip u) = "divya" <;> by_cases h2 : pw = "pass123" <;>
      simp [token, pyStrip, pyOr_vstr_empty, pyEqStr, h1, h2]
  · intro h
    simp [token, pyStrip, pyOr_vstr_empty, pyIntOr0, h, maybe_delay_from_query_or_json]
    split <;> rfl
  · intro hb ha
    subst hb; subst ha
    simp only [token, pyStrip, pyOr_vstr_empty, pyOr_vnone, pyIntOr0, pyInt,
               maybe_delay_from_query_or_json]
    split <;> rfl

/-- Witness for C5 at concrete inputs: padded username with the fixed
password and a non-numeric delay string. -/
theorem C5_amended_witness :
    ((token ⟨.vstr " divya ", .vstr "pass123", .vstr "zz"⟩ .vnone (AMetrics.mk 0 0)).resp =
      some (if (pystrip " divya ") = "divya" ∧ "pass123" = "pass123"
            then (.tokenOk ("token-" ++ (pystrip " divya ")) (pystrip " divya "), 200)
            else (.invalidCreds, 401))) ∧
    (token ⟨.vstr " divya ", .vstr "pass123", .vstr "zz"⟩ .vnone (AMetrics.mk 0 0)).sleptMs = 0 :=
  ⟨(C5_amended_fixed_pair " divya " "pass123" (.vstr "zz") .vnone (AMetrics.mk 0 0)).1,
   (C5_amended_fixed_pair " divya " "pass123" (.vstr "zz") .vnone (AMetrics.mk 0 0)).2.1 rfl⟩

/-- Helper: a 200 combined response always echoes the request id the
rendering step was given. -/
theorem render_outcome_resp_reqid (a : PyVal) (rid : String) (pr : ParsedPA)
    (m1 : BMetrics) (res : Except ReqException CallResult) (a0 : PyVal)
    (usr tok : Option String) (rid0 : String) (st : Nat)
    (h : (render_outcome a rid pr m1 res).resp = some (.actionOk a0 usr tok rid0, st)) :
    rid0 = rid := by
  cases res with
  | error e => exact Option.noConfusion h
  | ok cr =>
    simp only [render_outcome] at h
    split at h
    · simp at h
    · split at h
      · simp at h
      · split at h
        · cases h; rfl
        · exact Option.noConfusion h
        · exact Option.noConfusion h

/-- The request id discipline of one protected_action invocation: the string
`r` is recorded as the request id of the parsed locals, is the X-Request-ID
header of every outbound call, and is echoed in the 200 response body. -/
def usesReqId (out : PAOut) (r : String) : Prop :=
  (∀ pr, out.parsed = some pr → pr.request_id = r) ∧
  (∀ cr, out.call = some cr → ∀ oc ∈ cr.final.outCalls, oc.request_id = r) ∧
  (∀ a usr tok rid st, out.resp = some (.actionOk a usr tok rid, st) → rid = r)

/-- Helper: protected_action uses the resolved request id everywhere. -/
theorem protected_action_usesReqId (body : BBody) (hdr : Option String) (g : String)
    (ev : Nat → AttemptEvent) (m : BMetrics) :
    usesReqId (protected_action body hdr g ev m) (resolveReqId hdr g) := by
  unfold usesReqId protected_action
  cases hps : pyStrip (pyOr body.username (.vstr "")) with
  | none =>
    refine ⟨?_, ?_, ?_⟩
    · intro pr hpr; exact Option.noConfusion hpr
    · intro cr hcr; exact Option.noConfusion hcr
    · intro a usr tok rid st h; exact Option.noConfusion h
  | some username =>
    refine ⟨?_, ?_, ?_⟩
    · intro pr hpr
      rw [render_outcome_parsed] at hpr
      cases hpr; rfl
    · intro cr hcr oc hm
      have hres := render_outcome_call _ _ _ _ _ _ hcr
      have hone := callLoop_outCalls username (pyOr body.password (.vstr ""))
        (pyIntOr0 (pyOr body.delay_ms (.vint 0))) (resolveReqId hdr g) ev
        (retryFlag body.retry) _ _ cr hres
        (by intro oc2 hm2; exact absurd hm2 (List.not_mem_nil oc2)) oc hm
      rw [hone]
    · intro a usr tok rid st h
      exact render_outcome_resp_reqid _ _ _ _ _ _ _ _ _ _ h

/-- C7 counterexample: a request that carries the X-Request-ID header with the
empty string as its value does not get that exact string back: the handler
treats the falsy header value as absent and uses the generated uuid instead,
so the claim fails for empty header values. -/
theorem C7_counterexample :
    (protected_action ⟨.vstr "divya", .vstr "pass123", .vnone, .vnone, .vnone⟩
        (some "") "generated-uuid"
        (fun _ => .response 200 (.parsed (.dict (some "tok") (some "usr"))))
        (BMetrics.mk 0 0 0 0 0 0 0)).resp =
      some (.actionOk (.vstr "ping") (some "usr") (some "tok") "generated-uuid", 200) ∧
    "generated-uuid" ≠ "" := by
  exact ⟨by decide, by decide⟩

/-- C7 amended: a non-empty inbound X-Request-ID header value is used verbatim
as the X-Request-ID of every outbound call, recorded in the parsed locals and
echoed as request_id in the 200 response body; when the header is absent or
its value is empty, the single generated identifier is used consistently in
all those places. -/
theorem C7_request_id_propagation
    (body : BBody) (hdr : Option String) (g : String)
    (ev : Nat → AttemptEvent) (m : BMetrics) :
    (∀ s, hdr = some s → s ≠ "" → usesReqId (protected_action body hdr g ev m) s) ∧
    (hdr = none ∨ hdr = some "" → usesReqId (protected_action body hdr g ev m) g) := by
  constructor
  · intro s hs hne
    subst hs
    simpa [resolveReqId, hne] using protected_action_usesReqId body (some s) g ev m
  · intro hc
    rcases hc with rfl | rfl
    · simpa [resolveReqId] using protected_action_usesReqId body none g ev m
    · simpa [resolveReqId] using protected_action_usesReqId body (some "") g ev m

/-- Witness for C7 at a concrete request carrying header value abc123. -/
theorem C7_witness :
    usesReqId (protected_action ⟨.vstr "divya", .vstr "pass123", .vnone, .vnone, .vnone⟩
        (some "abc123") "G"
        (fun _ => .response 200 (.parsed (.dict (some "tok") (some "usr"))))
        (BMetrics.mk 0 0 0 0 0 0 0)) "abc123" :=
  (C7_request_id_propagation ⟨.vstr "divya", .vstr "pass123", .vnone, .vnone, .vnone⟩
      (some "abc123") "G"
      (fun _ => .response 200 (.parsed (.dict (some "tok") (some "usr"))))
      (BMetrics.mk 0 0 0 0 0 0 0)).1 "abc123" rfl (by decide)

/-- Helper: the provider call always returns ok (packaged form of the loop
lemma). -/
theorem call_provider_token_ok (u : String) (p : PyVal) (d : Int) (rid : String)
    (er : Bool) (ev : Nat → AttemptEvent) (m : BMetrics) :
    ∃ cr, call_provider_token u p d rid er ev m = .ok cr := by
  unfold call_provider_token
  cases hres : callLoop u p d rid ev er (rangeList (if er then 2 else 1))
      { metrics := m, lastExc := none, sleeps := 0, outCalls := [] } with
  | ok cr => exact ⟨cr, rfl⟩
  | error e =>
    have h := callLoop_isOk u p d rid ev er (rangeList (if er then 2 else 1))
      { metrics := m, lastExc := none, sleeps := 0, outCalls := [] }
    rw [hres] at h
    exact absurd h (by simp [isOkB])

/-- Helper: an ok call result with status ok carries a provider json. -/
theorem call_provider_token_ok_json (u : String) (p : PyVal) (d : Int)
    (rid : String) (er : Bool) (ev : Nat → AttemptEvent) (m : BMetrics)
    (cr : CallResult) (h : call_provider_token u p d rid er ev m = .ok cr) :
    cr.status = "ok" → cr.providerJson.isSome :=
  callLoop_ok_json u p d rid ev er _ _ _ h

/-- Every success-status response body of the run parses to a dict (no
attempt returns valid JSON that is not an object, such as a list): under
this condition the ok path of the endpoint never raises on `.get`. -/
def dictBodies (ev : Nat → AttemptEvent) : Prop :=
  ∀ n st, ev n ≠ .response st (.parsed .nonDict)

/-- Helper: a try block that returns success got a non-error response whose
body parsed to exactly the returned json value. -/
theorem tryBody_success_shape (evn : AttemptEvent) (pj : ProviderJson)
    (h : tryBody evn = .ok (.success pj)) :
    ∃ st, evn = .response st (.parsed pj) := by
  cases evn with
  | raised e => exact Except.noConfusion h
  | response st body =>
    refine ⟨st, ?_⟩
    simp only [tryBody] at h
    split at h
    · simp at h
    · split at h
      · exact Except.noConfusion h
      · split at h
        · injection h with h1
          injection h1 with h2
          rw [h2]
        · exact Except.noConfusion h

/-- Helper: when every success-status body of the run is a dict, a status ok
loop result carries a dict json. -/
theorem callLoop_ok_dict (u : String) (p : PyVal) (d : Int) (rid : String)
    (ev : Nat → AttemptEvent) (er : Bool) (hev : dictBodies ev) :
    ∀ (pending : List Nat) (st : CallState) (r : CallResult),
      callLoop u p d rid ev er pending st = .ok r → r.status = "ok" →
      ∃ t usr, r.providerJson = some (.dict t usr) := by
  intro pending
  induction pending with
  | nil =>
    intro st r h hs
    cases h
    simp [providerFailedResult] at hs
  | cons a rest ih =>
    intro st r h hs
    simp only [callLoop] at h
    revert h
    cases htb : tryBody (ev a) with
    | ok o =>
      cases o with
      | authFailed =>
        intro h
        cases h
        simp at hs
      | success pj =>
        intro h
        cases h
        obtain ⟨st0, hevn⟩ := tryBody_success_shape _ _ htb
        cases pj with
        | dict t usr => exact ⟨t, usr, rfl⟩
        | nonDict => exact absurd hevn (hev a st0)
    | error e =>
      dsimp only
      cases hcc : catchClause e with
      | none =>
        dsimp only
        intro h
        exact Except.noConfusion h
      | some c =>
        cases c with
        | otherC =>
          dsimp only
          intro h
          cases h
          simp [providerFailedResult] at hs
        | timeoutC =>
          dsimp only
          intro h
          exact ih _ _ h hs
        | connC =>
          dsimp only
          intro h
          exact ih _ _ h hs

/-- Helper: packaged form of the dict lemma for the whole provider call. -/
theorem call_provider_token_ok_dict (u : String) (p : PyVal) (d : Int)
    (rid : String) (er : Bool) (ev : Nat → AttemptEvent) (m : BMetrics)
    (cr : CallResult) (hev : dictBodies ev)
    (h : call_provider_token u p d rid er ev m = .ok cr) :
    cr.status = "ok" → ∃ t usr, cr.providerJson = some (.dict t usr) :=
  fun hs => callLoop_ok_dict u p d rid ev er hev _ _ _ h hs

/-- Helper: the rendering step produces a response whenever the call returned
normally and an ok status carries a dict json. -/
theorem render_outcome_resp_isSome (a : PyVal) (rid : String) (pr : ParsedPA)
    (m1 : BMetrics) (cr : CallResult)
    (hjson : cr.status = "ok" → ∃ t usr, cr.providerJson = some (.dict t usr)) :
    (render_outcome a rid pr m1 (.ok cr)).resp.isSome = true := by
  by_cases hst : cr.status = "auth_failed"
  · simp [render_outcome, hst]
  · by_cases hok : cr.status = "ok"
    · obtain ⟨t, usr, hpj⟩ := hjson hok
      simp [render_outcome, hst, hok, hpj]
    · simp [render_outcome, hst, hok]

/-- C8 counterexample: a body whose username field holds the number 5 (truthy
and not a string) makes the handler raise on `.strip()` (resp = none, a Flask
500): parsing is not total over every inbound body, and the request fails
without being an invalid-credentials rejection. -/
theorem C8_counterexample :
    (protected_action ⟨.vint 5, .vnone, .vnone, .vnone, .vnone⟩ none "G"
        (fun _ => .response 200 (.parsed (.dict (some "tok") (some "usr"))))
        (BMetrics.mk 0 0 0 0 0 0 0)).resp = none := by
  decide

/-- C8 amended: for every inbound body whose username field is absent, falsy,
or a string (in particular every missing or non-JSON body), parsing is total
and permissive: the action name defaults to ping when absent, the simulated
delay defaults to 0 and any value not parseable as an integer is coerced to
0, the retry flag defaults to true when absent; every response produced has
status 200, 401 or 503 and the only 401 is the invalid-credentials
rejection; and a response is always produced provided additionally every
success-status provider body is a JSON object (a success-status body that is
valid JSON but not an object makes the handler raise on
provider_json.get, a Flask 500). -/
theorem C8_parsing_permissive
    (body : BBody) (hdr : Option String) (g : String)
    (ev : Nat → AttemptEvent) (m : BMetrics)
    (hu : body.username.truthy = true → ∃ s, body.username = .vstr s) :
    (dictBodies ev → (protected_action body hdr g ev m).resp.isSome = true) ∧
    (body.action = .vnone → ∀ pr, (protected_action body hdr g ev m).parsed = some pr →
      pr.action = .vstr "ping") ∧
    (body.delay_ms = .vnone → ∀ pr, (protected_action body hdr g ev m).parsed = some pr →
      pr.delay_ms = 0) ∧
    (pyInt body.delay_ms = none → ∀ pr, (protected_action body hdr g ev m).parsed = some pr →
      pr.delay_ms = 0) ∧
    (body.retry = .vnone → ∀ pr, (protected_action body hdr g ev m).parsed = some pr →
      pr.enable_retry = true) ∧
    (∀ r st, (protected_action body hdr g ev m).resp = some (r, st) →
      (st = 200 ∨ st = 401 ∨ st = 503) ∧ (st = 401 → r = .invalidCreds)) := by
  have hstrip : ∃ t, pyStrip (pyOr body.username (.vstr "")) = some t := by
    cases hbu : body.username with
    | vnone => exact ⟨pystrip "", by simp [pyOr, PyVal.truthy, pyStrip]⟩
    | vstr s => exact ⟨pystrip s, by rw [pyStrip_username]⟩
    | vbool b =>
      cases b with
      | false => exact ⟨pystrip "", by simp [pyOr, PyVal.truthy, pyStrip]⟩
      | true =>
        obtain ⟨s, hs⟩ := hu (by rw [hbu]; rfl)
        rw [hbu] at hs
        exact PyVal.noConfusion hs
    | vint n =>
      by_cases hn : n = 0
      · exact ⟨pystrip "", by simp [pyOr, PyVal.truthy, pyStrip, hn]⟩
      · obtain ⟨s, hs⟩ := hu (by rw [hbu]; simp [PyVal.truthy, hn])
        rw [hbu] at hs
        exact PyVal.noConfusion hs
  obtain ⟨t, ht⟩ := hstrip
  refine ⟨?_, ?_, ?_, ?_, ?_, ?_⟩
  · intro hev
    simp only [protected_action, ht]
    obtain ⟨cr, hcr⟩ := call_provider_token_ok t (pyOr body.password (.vstr ""))
      (pyIntOr0 (pyOr body.delay_ms (.vint 0))) (resolveReqId hdr g)
      (retryFlag body.retry) ev
      { m with protected_action_requests := m.protected_action_requests + 1 }
    rw [hcr]
    exact render_outcome_resp_isSome _ _ _ _ _
      (call_provider_token_ok_dict _ _ _ _ _ _ _ _ hev hcr)
  · intro hact pr hpr
    simp only [protected_action, ht] at hpr
    rw [render_outcome_parsed] at hpr
    cases hpr
    simp [hact, pyOr_vnone]
  · intro hdl pr hpr
    simp only [protected_action, ht] at hpr
    rw [render_outcome_parsed] at hpr
    cases hpr
    simp [hdl, pyOr_vnone, pyIntOr0, pyInt]
  · intro hdl pr hpr
    simp only [protected_action, ht] at hpr
    rw [render_outcome_parsed] at hpr
    cases hpr
    by_cases htr : body.delay_ms.truthy = true
    · simp [pyOr, htr, pyIntOr0, hdl]
    · simp [pyOr, htr, pyIntOr0, pyInt]
  · intro hrt pr hpr
    simp only [protected_action, ht] at hpr
    rw [render_outcome_parsed] at hpr
    cases hpr
    simp [hrt, retryFlag]
  · intro r st h
    simp only [protected_action, ht] at h
    rcases render_outcome_resp _ _ _ _ _ _ _ h with ⟨h401, hr⟩ | ⟨h503, _⟩ | ⟨h200, _⟩
    · exact ⟨Or.inr (Or.inl h401), fun _ => hr⟩
    · exact ⟨Or.inr (Or.inr h503), fun hh => absurd (h503.symm.trans hh) (by decide)⟩
    · exact ⟨Or.inl h200, fun hh => absurd (h200.symm.trans hh) (by decide)⟩

/-- Witness for C8 at a concrete input: the empty body (missing or non-JSON
inbound body) against a provider that answers with a dict body. -/
theorem C8_witness :
    (protected_action ⟨.vnone, .vnone, .vnone, .vnone, .vnone⟩ none "G"
        (fun _ => .response 200 (.parsed (.dict (some "tok") (some "usr"))))
        (BMetrics.mk 0 0 0 0 0 0 0)).resp.isSome = true :=
  (C8_parsing_permissive ⟨.vnone, .vnone, .vnone, .vnone, .vnone⟩ none "G"
      (fun _ => .response 200 (.parsed (.dict (some "tok") (some "usr"))))
      (BMetrics.mk 0 0 0 0 0 0 0) (fun h => nomatch h)).1
    (by intro n st h; simp at h)

/-- Helper: on a normally returned call the rendering step reports the final
call metrics, whatever the response branch. -/
theorem render_outcome_metrics_ok (a : PyVal) (rid : String) (pr : ParsedPA)
    (m1 : BMetrics) (cr : CallResult) :
    (render_outcome a rid pr m1 (.ok cr)).metrics = cr.final.metrics := by
  simp only [render_outcome]
  split
  · rfl
  · split
    · rfl
    · split <;> rfl

/-- C9: every counter of both services is monotonically non-decreasing under
every modelled operation: the /token handler, the /protected-action handler
(including the whole retry loop inside it), the after_request hooks, and the
metrics endpoints each leave every counter unchanged or incremented, never
decremented or reset. -/
theorem C9_counters_monotone :
    (∀ (body : ABody) (ad : PyVal) (m : AMetrics), AMetrics.le m (token body ad m).metrics) ∧
    (∀ m : AMetrics, AMetrics.le m (log_request_a m)) ∧
    (∀ m : AMetrics, AMetrics.le m (metrics_endpoint_a m).1) ∧
    (∀ (body : BBody) (hdr : Option String) (g : String) (ev : Nat → AttemptEvent)
       (m : BMetrics), BMetrics.le m (protected_action body hdr g ev m).metrics) ∧
    (∀ m : BMetrics, BMetrics.le m (log_request_b m)) ∧
    (∀ m : BMetrics, BMetrics.le m (metrics_endpoint_b m).1) := by
  refine ⟨?_, ?_, ?_, ?_, ?_, ?_⟩
  · intro body ad m
    simp only [token]
    split
    · simp [AMetrics.le]
    · split <;> simp [AMetrics.le]
  · intro m
    simp [log_request_a, AMetrics.le]
  · intro m
    simp [metrics_endpoint_a, AMetrics.le]
  · intro body hdr g ev m
    simp only [protected_action]
    cases hps : pyStrip (pyOr body.username (.vstr "")) with
    | none => simp [BMetrics.le]
    | some username =>
      dsimp only
      obtain ⟨cr, hcr⟩ := call_provider_token_ok username (pyOr body.password (.vstr ""))
        (pyIntOr0 (pyOr body.delay_ms (.vint 0))) (resolveReqId hdr g)
        (retryFlag body.retry) ev
        { m with protected_action_requests := m.protected_action_requests + 1 }
      rw [hcr, render_outcome_metrics_ok]
      have h1 := callLoop_metrics_le username (pyOr body.password (.vstr ""))
        (pyIntOr0 (pyOr body.delay_ms (.vint 0))) (resolveReqId hdr g) ev
        (retryFlag body.retry) _ _ _ hcr
      refine BMetrics.le_trans ?_ h1
      simp [BMetrics.le]
  · intro m
    simp [log_request_b, BMetrics.le]
  · intro m
    simp [metrics_endpoint_b, BMetrics.le]
